import Mathlib

/-!
Verification of the `fix_fn` recursive-closure synthesizer (src/src/lib.rs).

The repository is a single `macro_rules! fix_fn` with four arms tried in order:
1. the accepting arm, matching `$($mov:ident)? |self, p1 : T1, ... $(,)?| -> R { body }`
   (self-parameter unannotated, every additional parameter annotated, mandatory
   return type, block body), which expands to a trait `HideFn` with one method
   `call`, a wrapper `HideFnImpl` whose `call` passes itself to the wrapped
   function, an inner closure rebinding the self name to an adapter that
   forwards to `call`, and a public closure forwarding to the single instance;
2. a rejection arm matching any parameter list followed directly by an `expr`
   body (i.e. no `-> R` annotation), emitting
   "Closure passed to fix_fn needs return type!";
3. a rejection arm matching an annotated self-parameter (with return type and
   block body), emitting "First parameter <name> may not have type annotation!";
4. a rejection arm matching an unannotated self-parameter (with return type and
   block body, hence reached when some additional parameter is unannotated),
   emitting "All parameters except first need to have an explicit type annotation!".

We embed the macro input as a `ClosureSpec`, the arm matching and expansion as
`fixFnExpand`, and the runtime behaviour of the expansion as a fuel-indexed
semantics (`callMethod`, `underlyingFn`, `selfAdapter`, `fixFnPublic`) that
mirrors the capability indirection of the generated code.
-/

namespace FixFn

/-- One parameter of the closure specification: a name and an optional type
annotation (in the macro, `$arg_name:ident $(: $arg_type:ty)?`). -/
structure Param where
  name : String
  ty : Option String
deriving DecidableEq, Repr

/-- Whether a parameter carries a type annotation. -/
def Param.isAnnotated (p : Param) : Bool := p.ty.isSome

/-- The `name : type` pair a parameter contributes to generated code (only
used where the annotation is known to be present). -/
def Param.pair (p : Param) : String × String := (p.name, p.ty.getD "")

/-- The syntactic input of the `fix_fn!` invocation: optional `move` marker,
the parameter list between the pipes (the first entry is the self-reference
parameter when present), whether a trailing comma follows the last parameter,
the optional `-> R` return-type annotation, and whether the body is a block
(`$body:block`) as opposed to a bare expression. -/
structure ClosureSpec where
  mov : Bool
  params : List Param
  trailingComma : Bool
  retType : Option String
  bodyIsBlock : Bool
deriving DecidableEq, Repr

/-- The components of the code generated by the accepting arm, one field per
site in the template where the parameter metavariables are spliced. -/
structure Expansion where
  mov : Bool
  /-- parameters of `fn call(&self, $($arg_name : $arg_type ,)*) -> $ret_type`. -/
  traitMethodParams : List (String × String)
  /-- return type of the trait method `call`. -/
  traitMethodRet : String
  /-- argument types in the bound `F: Fn(&dyn HideFn, $($arg_type ,)*) -> $ret_type`. -/
  implFnArgTypes : List String
  /-- the self-reference name, first parameter of the inner closure. -/
  innerSelfName : String
  /-- the remaining parameters of the inner closure, `$arg_name : $arg_type`. -/
  innerParams : List (String × String)
  /-- return type annotation of the inner closure. -/
  innerRet : String
  /-- parameters of the local adapter `let self = |$($arg_name : $arg_type),*| ...`. -/
  adapterParams : List (String × String)
  /-- parameters of the public closure `move |$($arg_name : $arg_type),*|`. -/
  publicParams : List (String × String)
  /-- return type annotation of the public closure. -/
  publicRet : String
deriving DecidableEq, Repr

/-- Result of macro expansion: generated code, a `compile_error!` message, or
no arm matching at all. -/
inductive ExpandResult where
  | expansion (e : Expansion)
  | error (msg : String)
  | noMatch
deriving DecidableEq, Repr

/-- The message of the second arm of `fix_fn!`. -/
def needsRetMsg : String := "Closure passed to fix_fn needs return type!"

/-- The message of the third arm of `fix_fn!`:
`concat!("First parameter ", stringify!($self_arg), " may not have type annotation!")`. -/
def selfAnnMsg (selfName : String) : String :=
  "First parameter " ++ selfName ++ " may not have type annotation!"

/-- The message of the fourth arm of `fix_fn!`. -/
def tailAnnMsg : String :=
  "All parameters except first need to have an explicit type annotation!"

/-- Whether the first (accepting) arm matches: a self parameter without type
annotation, every additional parameter annotated, a return type and a block
body.  The `$(,)?` makes the trailing comma irrelevant. -/
def arm1Matches (s : ClosureSpec) : Bool :=
  match s.params with
  | [] => false
  | p :: rest =>
    !p.isAnnotated && rest.all Param.isAnnotated && s.retType.isSome && s.bodyIsBlock

/-- Whether the second arm matches: its pattern accepts any parameter list
(each annotation optional) followed by an `expr` body, so it matches exactly
when no `-> R` annotation is present (a token stream starting with `->` is not
an expression, and both blocks and bare expressions are expressions). -/
def arm2Matches (s : ClosureSpec) : Bool := s.retType.isNone

/-- Whether the third arm matches: first parameter annotated, return type
present, block body; the remaining annotations are optional in its pattern. -/
def arm3Matches (s : ClosureSpec) : Bool :=
  match s.params with
  | [] => false
  | p :: _ => p.isAnnotated && s.retType.isSome && s.bodyIsBlock

/-- Whether the fourth arm matches: first parameter unannotated, return type
present, block body; the remaining annotations are optional in its pattern. -/
def arm4Matches (s : ClosureSpec) : Bool :=
  match s.params with
  | [] => false
  | p :: _ => !p.isAnnotated && s.retType.isSome && s.bodyIsBlock

/-- The code generated by the accepting arm, splicing the additional
parameters and the return type into each site of the template. -/
def expandAccept (mov : Bool) (selfName : String) (rest : List Param)
    (ret : String) : Expansion :=
  { mov := mov
    traitMethodParams := rest.map Param.pair
    traitMethodRet := ret
    implFnArgTypes := (rest.map Param.pair).map Prod.snd
    innerSelfName := selfName
    innerParams := rest.map Param.pair
    innerRet := ret
    adapterParams := rest.map Param.pair
    publicParams := rest.map Param.pair
    publicRet := ret }

/-- Expansion of `fix_fn!`: the four arms are tried in source order, the
first matching one fires. -/
def fixFnExpand (s : ClosureSpec) : ExpandResult :=
  if arm1Matches s then
    match s.params with
    | p :: rest => .expansion (expandAccept s.mov p.name rest (s.retType.getD ""))
    | [] => .noMatch
  else if arm2Matches s then .error needsRetMsg
  else if arm3Matches s then
    match s.params with
    | p :: _ => .error (selfAnnMsg p.name)
    | [] => .noMatch
  else if arm4Matches s then .error tailAnnMsg
  else .noMatch

/-- The additional-parameter list declared by the specification (every
parameter after the self parameter, with its declared type) together with the
declared return type, written after the spec's words: the public signature a
valid specification declares. -/
def declaredSignature (s : ClosureSpec) : List (String × String) × Option String :=
  ((s.params.drop 1).map Param.pair, s.retType)

/-!
Runtime semantics of the generated code.

The accepting arm generates exactly one capability instance
(`let inner = HideFnImpl(...)`), so capability references are modelled by the
one-constructor type `CapRef`.  `HideFnImpl::call` runs the wrapped function,
passing itself as the leading capability reference; general recursion is
embedded with a fuel parameter, `none` meaning fuel exhaustion.  The user body
is a function of the rebound self-reference (of the public signature
`A → Option R`) and the additional arguments.
-/

/-- A reference to the single capability instance `inner` of the expansion. -/
inductive CapRef where
  | inner
deriving DecidableEq, Repr

/-- The `call` method of `HideFnImpl`: `self.0(self, args)` runs the wrapped
function on the capability reference and the arguments; the wrapped function
(the inner closure) rebinds the self name to an adapter forwarding to `call`
and evaluates the body.  Fuel-indexed to embed the general recursion. -/
def callMethod {A R : Type} (body : (A → Option R) → A → Option R) :
    Nat → CapRef → A → Option R
  | 0, _, _ => none
  | fuel + 1, r, a => body (fun x => callMethod body fuel r x) a

/-- The local adapter `let $self_arg = |args| $self_arg.call(args)` bound at
the top of the inner closure: same public signature `A → Option R`, forwarding
to the capability reference's `call` method. -/
def selfAdapter {A R : Type} (body : (A → Option R) → A → Option R)
    (r : CapRef) (fuel : Nat) : A → Option R :=
  fun a => callMethod body fuel r a

/-- The wrapped function value (the inner closure): it takes the capability
reference as an extra leading argument, rebinds the self name to the adapter
and evaluates the body on the arguments. -/
def underlyingFn {A R : Type} (body : (A → Option R) → A → Option R)
    (selfRef : CapRef) (fuel : Nat) (a : A) : Option R :=
  body (selfAdapter body selfRef fuel) a

/-- The public closure returned by the expansion:
`move |args| inner.call(args)`. -/
def fixFnPublic {A R : Type} (body : (A → Option R) → A → Option R)
    (fuel : Nat) (a : A) : Option R :=
  callMethod body fuel CapRef.inner a

/-- Modulus of `u32` arithmetic. -/
def u32Mod : Nat := 4294967296

/-- The body of the doc-example closure
`|fib, i: u32| -> u32 { if i <= 1 { i } else { fib(i-1) + fib(i-2) } }`, as a
function of the rebound self-reference `fib` and the argument `i`.  `u32`
values are naturals below `u32Mod`; the guard makes the subtractions
underflow-free and the addition is reduced modulo `2 ^ 32`. -/
def fibBody (fib : Nat → Option Nat) (i : Nat) : Option Nat :=
  if i ≤ 1 then some i
  else
    match fib (i - 1), fib (i - 2) with
    | some a, some b => some ((a + b) % u32Mod)
    | _, _ => none

/-- The syntactic specification of the doc-example invocation
`fix_fn!(|fib, i: u32| -> u32 { ... })`. -/
def fibSpec : ClosureSpec :=
  { mov := false
    params := [⟨"fib", none⟩, ⟨"i", some "u32"⟩]
    trailingComma := false
    retType := some "u32"
    bodyIsBlock := true }

/-- A specification lacking the return-type annotation:
`|fib, i: u32| { ... }`. -/
def noRetSpec : ClosureSpec :=
  { mov := false
    params := [⟨"fib", none⟩, ⟨"i", some "u32"⟩]
    trailingComma := false
    retType := none
    bodyIsBlock := true }

/-- A specification whose self parameter is annotated:
`|fib: u32, i: u32| -> u32 { ... }`. -/
def annSelfSpec : ClosureSpec :=
  { mov := false
    params := [⟨"fib", some "u32"⟩, ⟨"i", some "u32"⟩]
    trailingComma := false
    retType := some "u32"
    bodyIsBlock := true }

/-- A specification whose additional parameter lacks its annotation:
`|fib, i| -> u32 { ... }`. -/
def noAnnSpec : ClosureSpec :=
  { mov := false
    params := [⟨"fib", none⟩, ⟨"i", none⟩]
    trailingComma := false
    retType := some "u32"
    bodyIsBlock := true }

/-!
Theorems for the claims.
-/

/-- C1: for every syntactically valid specification (unannotated self
parameter, every additional parameter annotated, return type present, block
body), the synthesized value's call signature — the public closure's parameter
list and return type — equals the declared additional-parameter list (in
order, excluding the self parameter) and the declared return type exactly. -/
theorem fixFn_valid_signature_eq_declared (s : ClosureSpec) (p : Param)
    (rest : List Param) (hp : s.params = p :: rest) (hself : p.ty = none)
    (hrest : rest.all Param.isAnnotated = true)
    (r : String) (hret : s.retType = some r) (hblock : s.bodyIsBlock = true) :
    ∃ e, fixFnExpand s = .expansion e ∧
      (e.publicParams, some e.publicRet) = declaredSignature s := by
  refine ⟨expandAccept s.mov p.name rest r, ?_, ?_⟩
  · simp [fixFnExpand, arm1Matches, hp, hself, hrest, hret, hblock,
      Param.isAnnotated]
  · simp [expandAccept, declaredSignature, hp, hret]

/-- Witness for C1 at the doc-example specification. -/
theorem fixFn_valid_signature_eq_declared_witness :
    ∃ e, fixFnExpand fibSpec = .expansion e ∧
      (e.publicParams, some e.publicRet) = declaredSignature fibSpec :=
  fixFn_valid_signature_eq_declared fibSpec ⟨"fib", none⟩ [⟨"i", some "u32"⟩]
    rfl rfl (by decide) "u32" rfl rfl

/-- C2: the doc-example specification
`|fib, i: u32| -> u32 { if i <= 1 { i } else { fib(i-1) + fib(i-2) } }` is
accepted (expanding to a closure with the single parameter `i : u32`), and the
synthesized closure applied to `7` returns `13` (with fuel 8, enough for the
recursion depth of the call). -/
theorem fixFn_fib_seven_eq_thirteen :
    fixFnExpand fibSpec =
      .expansion (expandAccept false "fib" [⟨"i", some "u32"⟩] "u32") ∧
    fixFnPublic fibBody 8 7 = some 13 := by
  exact ⟨by decide, by decide⟩

/-- C3: invoking the rebound self-reference (the adapter the expansion binds
over the body) on an argument gives the same result as invoking the outer
synthesized closure on that argument: both have the public signature
`A → Option R` and both forward to the `call` method of the one capability
instance, even though `underlyingFn` takes the extra leading `CapRef`. -/
theorem selfAdapter_eq_public {A R : Type}
    (body : (A → Option R) → A → Option R) (fuel : Nat) (a : A) :
    selfAdapter body CapRef.inner fuel a = fixFnPublic body fuel a := rfl

/-- C4: the capability-indirection algorithm: the public closure forwards its
argument to the instance's `call` method, which delegates to the underlying
function passing the instance itself as the leading capability reference;
hence the public closure applied to an argument equals the body evaluated with
the self name rebound to the recursive adapter. -/
theorem public_forwards_to_underlying {A R : Type}
    (body : (A → Option R) → A → Option R) (fuel : Nat) (a : A) :
    fixFnPublic body (fuel + 1) a = underlyingFn body CapRef.inner fuel a ∧
    underlyingFn body CapRef.inner fuel a
      = body (selfAdapter body CapRef.inner fuel) a := by
  exact ⟨rfl, rfl⟩

/-- C5 counterexample: on a concrete specification lacking the return-type
annotation the emitted diagnostic is not the spec's verbatim string
"closure needs return type." (the code emits
"Closure passed to fix_fn needs return type!"). -/
theorem needsRet_msg_ne_spec_msg :
    fixFnExpand noRetSpec ≠ ExpandResult.error "closure needs return type." := by
  decide

/-- C5 amended: every input lacking a return-type annotation produces the
diagnostic "Closure passed to fix_fn needs return type!" verbatim. -/
theorem missing_ret_diagnostic (s : ClosureSpec) (h : s.retType = none) :
    fixFnExpand s = .error needsRetMsg := by
  cases hp : s.params <;>
    simp [fixFnExpand, arm1Matches, arm2Matches, hp, h]

/-- Witness for the amended C5 at a concrete specification. -/
theorem missing_ret_diagnostic_witness :
    fixFnExpand noRetSpec = .error needsRetMsg :=
  missing_ret_diagnostic noRetSpec rfl

/-- C6: every input whose self parameter carries a type annotation (with a
return type and a block body) produces the diagnostic
`"First parameter " ++ name ++ " may not have type annotation!"`, which
contains the offending parameter's name. -/
theorem annotated_self_diagnostic (s : ClosureSpec) (p : Param)
    (rest : List Param) (t : String) (hp : s.params = p :: rest)
    (hty : p.ty = some t) (r : String) (hret : s.retType = some r)
    (hblock : s.bodyIsBlock = true) :
    fixFnExpand s = .error (selfAnnMsg p.name) ∧
      List.IsInfix p.name.data (selfAnnMsg p.name).data := by
  constructor
  · simp [fixFnExpand, arm1Matches, arm2Matches, arm3Matches, hp, hty, hret,
      hblock, Param.isAnnotated]
  · exact ⟨"First parameter ".data, " may not have type annotation!".data, by
      simp [selfAnnMsg, String.data_append]⟩

/-- Witness for C6 at a concrete specification with annotated self. -/
theorem annotated_self_diagnostic_witness :
    fixFnExpand annSelfSpec = .error (selfAnnMsg "fib") ∧
      List.IsInfix "fib".data (selfAnnMsg "fib").data :=
  annotated_self_diagnostic annSelfSpec ⟨"fib", some "u32"⟩
    [⟨"i", some "u32"⟩] "u32" rfl rfl "u32" rfl rfl

/-- C7 counterexample: on a concrete specification with an unannotated
additional parameter the emitted diagnostic is not the spec's verbatim string
"all parameters except first need explicit type annotation." (the code emits
"All parameters except first need to have an explicit type annotation!"). -/
theorem tailAnn_msg_ne_spec_msg :
    fixFnExpand noAnnSpec ≠ ExpandResult.error
      "all parameters except first need explicit type annotation." := by
  decide

/-- C7 amended: every input with an unannotated self parameter, a return type
and a block body in which some additional parameter lacks its type annotation
produces the diagnostic
"All parameters except first need to have an explicit type annotation!"
verbatim. -/
theorem missing_tail_ann_diagnostic (s : ClosureSpec) (p : Param)
    (rest : List Param) (hp : s.params = p :: rest) (hself : p.ty = none)
    (hrest : rest.all Param.isAnnotated = false)
    (r : String) (hret : s.retType = some r) (hblock : s.bodyIsBlock = true) :
    fixFnExpand s = .error tailAnnMsg := by
  simp [fixFnExpand, arm1Matches, arm2Matches, arm3Matches, arm4Matches,
    hp, hself, hrest, hret, hblock, Param.isAnnotated]

/-- Witness for the amended C7 at a concrete specification. -/
theorem missing_tail_ann_diagnostic_witness :
    fixFnExpand noAnnSpec = .error tailAnnMsg :=
  missing_tail_ann_diagnostic noAnnSpec ⟨"fib", none⟩ [⟨"i", none⟩]
    rfl rfl (by decide) "u32" rfl rfl

/-- C9: the trailing comma after the last parameter is accepted by every arm
(`$(,)?`) and never affects the result: the expansion with a trailing comma
equals the expansion without it, on every input. -/
theorem trailing_comma_irrelevant (mov : Bool) (ps : List Param)
    (ret : Option String) (blk : Bool) :
    fixFnExpand ⟨mov, ps, true, ret, blk⟩
      = fixFnExpand ⟨mov, ps, false, ret, blk⟩ := rfl

/-- C10: when the return-type annotation is missing and the input also
exhibits another malformed shape (annotated self parameter, or some
additional parameter unannotated), the diagnostic emitted is the
missing-return-type one, because that rejection arm is tried first. -/
theorem missing_ret_wins_over_other_arms (s : ClosureSpec) (p : Param)
    (rest : List Param) (hp : s.params = p :: rest) (hret : s.retType = none)
    (hmal : p.ty ≠ none ∨ rest.all Param.isAnnotated = false) :
    fixFnExpand s = .error needsRetMsg := by
  simp [fixFnExpand, arm1Matches, arm2Matches, hp, hret]

/-- Witness for C10: a specification with annotated self parameter and no
return type gets the missing-return-type diagnostic. -/
theorem missing_ret_wins_over_other_arms_witness :
    fixFnExpand ⟨false, [⟨"fib", some "u32"⟩, ⟨"i", some "u32"⟩], false,
      none, true⟩ = .error needsRetMsg :=
  missing_ret_wins_over_other_arms _ ⟨"fib", some "u32"⟩ [⟨"i", some "u32"⟩]
    rfl rfl (Or.inl (by decide))

end FixFn
